import Mathlib

/-!
# Verification of the Missive inbound-webhook thread pipeline

A shallow embedding, in Lean 4, of the pure core of the webhook handler in
`api/missive-inbound.js` (and its sibling handler variants in the repository):

* `clamp`, `addParagraphSpacing`, `appendSignature` — HTML post-processing helpers;
* `fetchConversationMessages` — the paginated list-then-hydrate fetch loop
  (network calls are abstracted as functions supplied by the environment);
* `detectCtaPath` — the multilingual keyword router, with its sixteen
  regular-expression batteries transcribed into an executable matcher;
* the greeting-enforcement machinery (`startsWithGreeting`,
  `personalizeExistingGreeting`, `dedupeGreetings`);
* `draftSubject` — the "Re:" prefixing of the draft subject;
* `getReplyTarget` — selection of the latest external sender.

JavaScript strings are modelled as Lean `String`s viewed through their
character lists (`String.data`); `str.slice(0, n)` becomes `List.take n`,
`includes`/`startsWith`/`endsWith` become list infix/prefix/suffix tests, and
string falsiness (`!s`) becomes an emptiness test.  Optional / nullable values
are modelled with `Option`.
-/

namespace TabMissive

set_option maxRecDepth 40000

/-! ## JavaScript string primitives -/

/-- The character class of JavaScript's `\s` (and of `trim`), restricted to the
whitespace code points that occur in practice: space, tab, LF, VT, FF, CR and
NBSP. -/
def jsWsChar (c : Char) : Bool :=
  c == ' ' || c == '\t' || c == '\n' || c == '\r' || c.toNat == 11 || c.toNat == 12 ||
    c.toNat == 0xA0

/-- JavaScript `String.prototype.toLowerCase`, restricted to ASCII and the Latin-1
uppercase letters (the only letters the handler's data and patterns use). -/
def jsLowerChar (c : Char) : Char :=
  if 'A' ≤ c ∧ c ≤ 'Z' then c.toLower
  else if 0xC0 ≤ c.toNat ∧ c.toNat ≤ 0xDE ∧ c.toNat ≠ 0xD7 then Char.ofNat (c.toNat + 0x20)
  else c

/-- Model of `s.toLowerCase()`. -/
def jsToLower (s : String) : String :=
  ⟨s.data.map jsLowerChar⟩

/-- Model of `s.includes(sub)`. -/
def jsIncludes (s sub : String) : Bool :=
  decide (sub.data <:+: s.data)

/-- Model of `s.startsWith(p)`. -/
def jsStartsWith (s p : String) : Bool :=
  decide (p.data <+: s.data)

/-- Model of `s.endsWith(p)`. -/
def jsEndsWith (s p : String) : Bool :=
  decide (p.data <:+ s.data)

/-- Model of `s.trim()`: drop leading and trailing whitespace. -/
def jsTrim (s : String) : String :=
  ⟨(((s.data.dropWhile jsWsChar).reverse.dropWhile jsWsChar)).reverse⟩

/-! ## `clamp` (missive-inbound.js lines 26–29)

```js
function clamp(text, max = 120000) {
  if (!text) return "";
  return text.length <= max ? text : text.slice(0, max) + "\n[...truncated for length...]";
}
``` -/

/-- The fixed truncation marker appended by `clamp`. -/
def truncationMarker : String := "\n[...truncated for length...]"

/-- Model of `clamp(text, max)`; `text.slice(0, max)` is `List.take max` on the
character list. -/
def clamp (text : String) (max : Nat) : String :=
  if text = "" then ""
  else if text.length ≤ max then text
  else ⟨text.data.take max⟩ ++ truncationMarker

/-! ## `addParagraphSpacing` (missive-inbound.js lines 43–45)

```js
function addParagraphSpacing(html) {
  return String(html || "").replace(/<\/p>\s*<p>/g, "</p><p><br></p><p>");
}
```

The regex `<\/p>\s*<p>` has no backtracking ambiguity (`\s` cannot match `<`),
so a global replace is a deterministic left-to-right scan: at each position
try to consume `</p>`, then maximal whitespace, then `<p>`; on success emit
the replacement and resume after the match, otherwise copy one character.
The scanner carries a fuel argument (initialised to the string length, which
each step strictly decreases below) so that it is structurally recursive and
kernel-evaluable. -/

/-- Consume the exact literal `lit` from the front of `l`. -/
def dropLit : List Char → List Char → Option (List Char)
  | [], l => some l
  | _, [] => none
  | p :: ps, c :: cs => if c = p then dropLit ps cs else none

/-- Match `</p>\s*<p>` at the head of `l`, returning the rest on success. -/
def matchAdjAt (l : List Char) : Option (List Char) :=
  (dropLit "</p>".data l).bind fun l1 => dropLit "<p>".data (l1.dropWhile jsWsChar)

/-- The replacement text `</p><p><br></p><p>`. -/
def spacerChars : List Char := "</p><p><br></p><p>".data

/-- Global replace of `</p>\s*<p>` by the spacer, as a fuelled scan. -/
def replaceAdjGo : Nat → List Char → List Char
  | _, [] => []
  | 0, l => l
  | fuel + 1, c :: cs =>
    match matchAdjAt (c :: cs) with
    | some rest => spacerChars ++ replaceAdjGo fuel rest
    | none => c :: replaceAdjGo fuel cs

/-- Model of `addParagraphSpacing(html)`. -/
def addParagraphSpacing (html : String) : String :=
  ⟨replaceAdjGo html.data.length html.data⟩

/-! ## `appendSignature` (missive-inbound.js lines 48–52) -/

/-- The fixed signature block `sig` of `appendSignature`. -/
def tabSignature : String :=
  "<p><br></p><p>Raghvi</p><p>—</p><p>Tab Support</p><p><br></p><p>Tab.</p><p><a href=\"https://business.tab.travel/payments\">business.tab.travel/payments</a></p><p><br></p><p>Tab Labs Ltd is a company registered in England and Wales. Registered number: 09339113. Registered office: 6th Floor, 1 London Wall, London, EC2Y 5EB, UK.</p>"

/-- Model of `appendSignature(html)`: append `tabSignature` unless both marker
substrings `"Raghvi"` and `"Tab Support"` are already present. -/
def appendSignature (html : String) : String :=
  if jsIncludes html "Raghvi" && jsIncludes html "Tab Support" then html
  else html ++ tabSignature

/-! ## The message thread fetch loop (missive-inbound.js lines 59–122)

`fetchConversationMessages` repeatedly calls the page-listing endpoint
(page size `limit = 10`, cursor `until` = oldest `delivered_at` seen so far),
hydrates every listed stub by a per-id fetch, and stops when the page is
short, the cursor cannot advance, or the `MAX_PAGES = 6` ceiling is reached.
The two endpoints are abstracted as functions `api` (listing: cursor ↦ page
of stubs) and `hydrate` (per-id fetch: id ↦ full message); `delivered_at` and
`created_at` are modelled as integers (`Option Int` where nullable).  The
while-loop becomes a fuelled recursion with fuel `MAX_PAGES - pages`; the
result is paired with the number of listing calls performed. -/

/-- A message stub as returned by the listing endpoint. -/
structure Stub where
  id : String
  delivered_at : Option Int
deriving DecidableEq, Repr

/-- A hydrated message, with the fields the handler reads. -/
structure Msg where
  created_at : Int
  fromAddress : Option String := none
  creatorEmail : Option String := none
deriving DecidableEq, Repr

/-- Missive's maximum page size for the listing endpoint (`limit`). -/
def limit : Nat := 10

/-- The hard page-count ceiling (`MAX_PAGES`). -/
def MAX_PAGES : Nat := 6

/-- Stable insertion of a message into a list sorted ascending by
`created_at`. -/
def insertByCreated (m : Msg) : List Msg → List Msg
  | [] => [m]
  | n :: ns => if m.created_at ≤ n.created_at then m :: n :: ns else n :: insertByCreated m ns

/-- Model of `collected.sort((a, b) => new Date(a.created_at) - new Date(b.created_at))`:
a stable ascending sort by creation timestamp (Array.prototype.sort is stable;
any stable sort with this comparator computes the same list). -/
def sortByCreated (l : List Msg) : List Msg :=
  l.foldr insertByCreated []

/-- The body of the `while (pages < MAX_PAGES)` loop.  Returns the collected
messages together with the number of listing calls made. -/
def fetchGo (api : Option Int → List Stub) (hydrate : String → Msg) :
    Nat → Option Int → List Msg → List Msg × Nat
  | 0, _, collected => (collected, 0)
  | fuel + 1, until_, collected =>
    let page := api until_
    if page.length = 0 then (collected, 1)
    else
      let collected2 := collected ++ page.map (fun stub => hydrate stub.id)
      let deliveredAts := page.filterMap Stub.delivered_at
      let oldestInPage : Option Int := deliveredAts.min?
      -- `page.length < limit || !oldestInPage || oldestInPage === until`
      if page.length < limit ∨ oldestInPage = none ∨ oldestInPage = some 0 ∨
          oldestInPage = until_ then
        (collected2, 1)
      else
        let r := fetchGo api hydrate fuel oldestInPage collected2
        (r.1, r.2 + 1)

/-- Model of `fetchConversationMessages`: run the loop from an empty accumulator and
an undefined cursor, then present the result oldest → newest. -/
def fetchConversationMessages (api : Option Int → List Stub) (hydrate : String → Msg) :
    List Msg × Nat :=
  let r := fetchGo api hydrate MAX_PAGES none []
  (sortByCreated r.1, r.2)

/-! ## Reply-target selection (handler variant with `getReplyTarget`,
lines 124–143 of that file) -/

/-- Model of `m?.from_field?.address || m?.creator?.email || ""`. -/
def senderAddr (m : Msg) : String :=
  if m.fromAddress.getD "" ≠ "" then m.fromAddress.getD "" else m.creatorEmail.getD ""

/-- Model of `isFromTabAddress(addr)`: lower-case, trim, then test
`endsWith("@tab.travel") || a === "hello@tab.travel"`. -/
def isFromTabAddress (addr : String) : Bool :=
  let a := jsTrim (jsToLower addr)
  jsEndsWith a "@tab.travel" || a == "hello@tab.travel"

/-- Model of `isFromTab(m)`. -/
def isFromTab (m : Msg) : Bool :=
  isFromTabAddress (senderAddr m)

/-- Model of `getReplyTarget(messages)`: walk from the end towards the front and
return the first message not from Tab; fall back to the last message
(`messages[messages.length - 1]`, which is `undefined` on an empty list). -/
def getReplyTarget (messages : List Msg) : Option Msg :=
  match messages.reverse.find? (fun m => !isFromTab m) with
  | some m => some m
  | none => messages.getLast?

/-! ## Draft subject (missive-inbound.js lines 433–435)

```js
const draftSubject = subject
  ? (subject.toLowerCase().startsWith('re:') ? subject : `Re: ${subject}`)
  : "Re:";
``` -/

/-- The draft subject computation. -/
def draftSubject (subject : String) : String :=
  if subject = "" then "Re:"
  else if jsStartsWith (jsToLower subject) "re:" then subject
  else "Re: " ++ subject

/-! ## A small regular-expression engine

The sixteen keyword patterns of `detectCtaPath` use only literals, character
classes, alternation, optional groups (`?`) and the word boundary `\b` — no
unbounded repetition.  They are transcribed into the following AST and run by
a continuation-passing backtracking matcher (alternatives tried left to
right, `?` greedy, exactly as the JavaScript engine does). -/

/-- Regular expressions without unbounded repetition. -/
inductive RE where
  | emp : RE
  | chr (p : Char → Bool) : RE
  | seq (a b : RE) : RE
  | alt (a b : RE) : RE
  | opt (a : RE) : RE
  | wb : RE

/-- JavaScript word characters (`\w`), deciding `\b`. -/
def isWordChar (c : Char) : Bool :=
  ('a' ≤ c && c ≤ 'z') || ('A' ≤ c && c ≤ 'Z') || ('0' ≤ c && c ≤ '9') || c == '_'

/-- A word boundary between the previously consumed character and the rest of
the input. -/
def wordBoundary (prev : Option Char) (s : List Char) : Bool :=
  (match prev with | none => false | some c => isWordChar c) !=
    (match s with | [] => false | c :: _ => isWordChar c)

/-- CPS matcher: try to match `re` at the head of `s` (with `prev` the
character just before `s`, for `\b`) and call the continuation on the rest. -/
def matchCont : RE → Option Char → List Char → (Option Char → List Char → Bool) → Bool
  | RE.emp, prev, s, k => k prev s
  | RE.chr _, _, [], _ => false
  | RE.chr p, _, c :: cs, k => p c && k (some c) cs
  | RE.seq a b, prev, s, k => matchCont a prev s (fun p2 s2 => matchCont b p2 s2 k)
  | RE.alt a b, prev, s, k => matchCont a prev s k || matchCont b prev s k
  | RE.opt a, prev, s, k => matchCont a prev s k || k prev s
  | RE.wb, prev, s, k => wordBoundary prev s && k prev s

/-- Search for a match of `re` starting at any position of `s`. -/
def reSearchAux (re : RE) : Option Char → List Char → Bool
  | prev, [] => matchCont re prev [] (fun _ _ => true)
  | prev, c :: cs => matchCont re prev (c :: cs) (fun _ _ => true) || reSearchAux re (some c) cs

/-- Model of `re.test(s)` for an unanchored pattern. -/
def reTest (re : RE) (s : String) : Bool :=
  reSearchAux re none s.data

/-- Model of `re.test(s)` for a `^`-anchored pattern. -/
def reMatchStart (re : RE) (s : String) : Bool :=
  matchCont re none s.data (fun _ _ => true)

/-- A literal character. -/
def rchr (c : Char) : RE := RE.chr (fun d => d == c)

/-- A literal string. -/
def rstr (s : String) : RE := (s.data.map rchr).foldr RE.seq RE.emp

/-- A character class given by its members. -/
def rcls (s : String) : RE := RE.chr (fun d => s.data.any (fun c => c == d))

/-- The class `\s`. -/
def rws : RE := RE.chr jsWsChar

/-- Optional whitespace, `\s?`. -/
def wsOpt : RE := RE.opt rws

/-- Optional dash or whitespace, `[-\s]?`. -/
def dashOrWsOpt : RE := RE.opt (RE.chr (fun d => d == '-' || jsWsChar d))

/-- Concatenation of a list of patterns. -/
def rsq (l : List RE) : RE := l.foldr RE.seq RE.emp

/-- Alternation of a list of patterns, tried left to right. -/
def ror : List RE → RE
  | [] => RE.emp
  | r :: rs => rs.foldl RE.alt r

/-! ## The CTA router (missive-inbound.js lines 189–281)

`fold` (NFD normalisation followed by removal of the combining marks
U+0300–U+036F) is modelled for the Latin repertoire the patterns use: each
precomposed accented Latin letter maps to its base letter, and free-standing
combining marks are dropped. -/

/-- Base letter of the precomposed Latin letters relevant to the patterns. -/
def baseChar (c : Char) : Char :=
  if "àáâãäå".data.contains c then 'a'
  else if "ÀÁÂÃÄÅ".data.contains c then 'A'
  else if "èéêë".data.contains c then 'e'
  else if "ÈÉÊË".data.contains c then 'E'
  else if "ìíîï".data.contains c then 'i'
  else if "ÌÍÎÏ".data.contains c then 'I'
  else if "òóôõö".data.contains c then 'o'
  else if "ÒÓÔÕÖ".data.contains c then 'O'
  else if "ùúûü".data.contains c then 'u'
  else if "ÙÚÛÜ".data.contains c then 'U'
  else if c == 'ç' then 'c'
  else if c == 'Ç' then 'C'
  else if c == 'ñ' then 'n'
  else if c == 'Ñ' then 'N'
  else c

/-- Model of `fold(str)`: accent folding via NFD + combining-mark removal. -/
def fold (s : String) : String :=
  ⟨(s.data.map baseChar).filter (fun c => !(0x300 ≤ c.toNat && c.toNat ≤ 0x36F))⟩

/-- The two haystack views built by `haystack(text, subj)`. -/
structure Hay where
  lower : String
  foldLower : String
deriving Repr

/-- Model of `haystack(text, subj)`: concatenate subject and text and expose the
lower-cased and the folded-then-lower-cased views. -/
def haystack (text subj : String) : Hay :=
  let raw := subj ++ "\n" ++ text
  ⟨jsToLower raw, jsToLower (fold raw)⟩

/-- Model of `testAny(hay, ...regexes)`: some pattern matches one of the two views. -/
def testAny (hay : Hay) (regexes : List RE) : Bool :=
  regexes.any (fun rx => reTest rx hay.lower || reTest rx hay.foldLower)

/-! ### The four keyword batteries (EN/ES/PT/FR each)

Transcribed pattern by pattern from `detectCtaPath`.  In the source the PT
and FR in-person patterns are wrapped over two physical lines inside the
regex literal; since an unescaped line terminator is not legal in a
JavaScript regex literal they are read as single-line patterns here. -/

/-- Apostrophe class: straight (code 39) or curly, the class `[’']`. -/
def apostCls : RE := RE.chr (fun c => c.toNat == 39 || c == '’')

/-- In-person battery, English. -/
def inPersonEN : RE := ror [
  rsq [rstr "in", dashOrWsOpt, rstr "person"],
  rsq [rstr "face", wsOpt, rstr "to", wsOpt, rstr "face"],
  rsq [rstr "pos", RE.wb],
  rsq [rstr "card", wsOpt, ror [rstr "reader", rstr "machine"]],
  rsq [rstr "tap", wsOpt, rstr "to", wsOpt, rstr "pay"],
  rsq [rstr "pay", wsOpt, rstr "by", wsOpt, rstr "phone"],
  rsq [rstr "in", wsOpt, rstr "store"],
  rsq [rstr "on", dashOrWsOpt, rstr "site"]]

/-- In-person battery, Spanish. -/
def inPersonES : RE := ror [
  rsq [rstr "en", wsOpt, rstr "persona"],
  rstr "presencial",
  rsq [rstr "en", wsOpt, rstr "tienda"],
  rsq [rstr "en", wsOpt, rstr "el", wsOpt, rstr "sitio"],
  rstr "tpv",
  rstr "datafono",
  rsq [rstr "dat", rcls "aá", rstr "fono"],
  rsq [rstr "lector", wsOpt, rstr "de", wsOpt, rstr "tarjetas"],
  rsq [rstr "pagar", wsOpt, rstr "por", wsOpt, rstr "telefono"],
  rsq [rstr "pago", wsOpt, rstr "por", wsOpt, rstr "telefono"]]

/-- In-person battery, Portuguese. -/
def inPersonPT : RE := ror [
  rstr "presencial",
  rsq [rstr "em", wsOpt, rstr "pessoa"],
  rsq [rstr "na", wsOpt, rstr "loja"],
  rsq [rstr "no", wsOpt, rstr "local"],
  rsq [rstr "pos", RE.wb],
  rstr "maquininha",
  rsq [rstr "leitor", wsOpt, rstr "de", wsOpt, rstr "cart", rcls "aã", rstr "o"],
  rsq [rstr "pagar", wsOpt, rstr "por", wsOpt, rstr "tele", ror [rstr "pho", rstr "fo"],
    rstr "ne"]]

/-- In-person battery, French. -/
def inPersonFR : RE := ror [
  rsq [rstr "en", wsOpt, rstr "personne"],
  rsq [rstr "en", wsOpt, rstr "magasin"],
  rsq [rstr "sur", wsOpt, rstr "place"],
  rsq [rstr "tpe", RE.wb],
  rsq [rstr "lecteur", wsOpt, rstr "de", wsOpt, rstr "carte"],
  rsq [rstr "paiement", wsOpt, rstr "par", wsOpt, rstr "tele", ror [rstr "pho", rstr "fo"],
    rstr "ne"],
  rsq [rstr "sans", wsOpt, rstr "contact"]]

/-- The in-person battery as passed to `testAny`. -/
def inPersonRegexes : List RE := [inPersonEN, inPersonES, inPersonPT, inPersonFR]

/-- Integrations battery, English. -/
def integrationsEN : RE := ror [
  rstr "integration", rstr "integrations", rstr "integrate", rstr "plugin",
  rsq [rstr "plug", dashOrWsOpt, rstr "in"],
  rsq [rstr "connect", wsOpt, rstr "with"],
  rsq [rstr "works", wsOpt, rstr "with"],
  rstr "supports", rstr "pms", rstr "booking.com", rstr "airbnb", rstr "xero",
  rstr "quickbooks"]

/-- Integrations battery, Spanish. -/
def integrationsES : RE := ror [
  rsq [rstr "integraci", rcls "oó", rstr "n"],
  rstr "integraciones", rstr "integrar", rstr "plugin",
  rsq [rstr "plug", dashOrWsOpt, rstr "in"],
  rstr "conector",
  rsq [rstr "conectar", wsOpt, rstr "con"],
  rsq [rstr "funciona", wsOpt, rstr "con"],
  rstr "pms", rstr "booking.com", rstr "airbnb", rstr "xero", rstr "quickbooks"]

/-- Integrations battery, Portuguese. -/
def integrationsPT : RE := ror [
  rsq [rstr "integra", rcls "cç", rcls "aã", rstr "o"],
  rsq [rstr "integra", rcls "cç", rcls "oõ", rstr "es"],
  rstr "integrar", rstr "plugin",
  rsq [rstr "plug", dashOrWsOpt, rstr "in"],
  rsq [rstr "conectar", wsOpt, rstr "com"],
  rsq [rstr "funciona", wsOpt, rstr "com"],
  rstr "pms", rstr "booking.com", rstr "airbnb", rstr "xero", rstr "quickbooks"]

/-- Integrations battery, French. -/
def integrationsFR : RE := ror [
  rsq [rstr "int", rcls "eé", rstr "gration"],
  rsq [rstr "int", rcls "eé", rstr "grations"],
  rsq [rstr "int", rcls "eé", rstr "grer"],
  rstr "plugin",
  rsq [rstr "plug", dashOrWsOpt, rstr "in"],
  rsq [rstr "se", wsOpt, rstr "connecter", wsOpt, rcls "aà"],
  rsq [rstr "fonctionne", wsOpt, rstr "avec"],
  rstr "pms", rstr "booking.com", rstr "airbnb", rstr "xero", rstr "quickbooks"]

/-- The integrations battery as passed to `testAny`. -/
def integrationsRegexes : List RE :=
  [integrationsEN, integrationsES, integrationsPT, integrationsFR]

/-- On-your-website battery, English. -/
def onWebsiteEN : RE := ror [
  rstr "website",
  rsq [rstr "on", wsOpt, ror [rstr "your", rstr "my"], wsOpt, ror [rstr "website", rstr "site"]],
  rstr "checkout",
  rsq [rstr "online", wsOpt, rstr "payments"],
  rsq [rstr "payment", wsOpt, ror [rstr "form", rstr "page"]],
  rsq [rstr "accept", wsOpt, rstr "payments", wsOpt, rstr "online"]]

/-- On-your-website battery, Spanish. -/
def onWebsiteES : RE := ror [
  rsq [rstr "sitio", wsOpt, rstr "web"],
  rsq [rstr "en", wsOpt, ror [rstr "su", rstr "mi"], wsOpt, rstr "sitio"],
  rsq [rstr "en", wsOpt, rstr "la", wsOpt, rstr "web"],
  rsq [rstr "pago", RE.opt (rchr 's'), wsOpt, ror [rstr "online", rsq [rstr "en", wsOpt, rstr "linea"]]],
  rstr "checkout",
  rsq [rstr "p", rcls "aá", rstr "gina", wsOpt, rstr "de", wsOpt, rstr "pago"],
  rsq [rstr "formulario", wsOpt, rstr "de", wsOpt, rstr "pago"],
  rsq [rstr "aceptar", wsOpt, rstr "pago", RE.opt (rchr 's'), wsOpt, rstr "en", wsOpt,
    rstr "l", rcls "ií", rstr "nea"]]

/-- On-your-website battery, Portuguese. -/
def onWebsitePT : RE := ror [
  rstr "site", rstr "website",
  rsq [rstr "no", wsOpt, ror [rstr "seu", rstr "meu"], wsOpt, rstr "site"],
  rsq [rstr "pagamento", RE.opt (rchr 's'), wsOpt, rstr "online"],
  rstr "checkout",
  rsq [rstr "p", rcls "aá", rstr "gina", wsOpt, rstr "de", wsOpt, rstr "pagamento"],
  rsq [rstr "formul", rcls "aá", rstr "rio", wsOpt, rstr "de", wsOpt, rstr "pagamento"],
  rsq [rstr "aceitar", wsOpt, rstr "pagamento", RE.opt (rchr 's'), wsOpt, rstr "online"]]

/-- On-your-website battery, French. -/
def onWebsiteFR : RE := ror [
  rsq [rstr "site", wsOpt, rstr "web"],
  rsq [rstr "sur", wsOpt, ror [rstr "votre", rstr "mon"], wsOpt, rstr "site"],
  rsq [rstr "en", wsOpt, rstr "ligne"],
  rsq [rstr "paiement", RE.opt (rchr 's'), wsOpt, rstr "en", wsOpt, rstr "ligne"],
  rsq [rstr "page", wsOpt, rstr "de", wsOpt, rstr "paiement"],
  rsq [rstr "formulaire", wsOpt, rstr "de", wsOpt, rstr "paiement"],
  rsq [rstr "accepter", wsOpt, rstr "les", wsOpt, rstr "paiement", RE.opt (rchr 's'), wsOpt,
    rstr "en", wsOpt, rstr "ligne"]]

/-- The on-your-website battery as passed to `testAny`. -/
def onWebsiteRegexes : List RE := [onWebsiteEN, onWebsiteES, onWebsitePT, onWebsiteFR]

/-- Payment-links battery, English. -/
def paymentEN : RE := ror [
  rsq [rstr "payment", wsOpt, rstr "link"],
  rsq [rstr "pay", wsOpt, rstr "link"],
  rsq [rstr "link", wsOpt, rstr "to", wsOpt, rstr "pay"],
  rstr "invoice",
  rsq [rstr "request", wsOpt, RE.opt (rsq [rstr "a", wsOpt]), rstr "payment"],
  rsq [rstr "advance", wsOpt, rstr "payment"],
  rsq [rstr "deposit", wsOpt, rstr "request"]]

/-- Payment-links battery, Spanish. -/
def paymentES : RE := ror [
  rsq [rstr "enlace", wsOpt, rstr "de", wsOpt, rstr "pago"],
  rsq [rstr "link", wsOpt, rstr "de", wsOpt, rstr "pago"],
  rsq [rstr "enlace", wsOpt, rstr "para", wsOpt, rstr "pagar"],
  rstr "factura",
  rsq [rstr "solicitud", wsOpt, rstr "de", wsOpt, rstr "pago"],
  rsq [rstr "pago", wsOpt, rstr "por", wsOpt, rstr "adelantado"],
  rstr "anticipo",
  rsq [rstr "dep", rcls "oó", rstr "sito"]]

/-- Payment-links battery, Portuguese. -/
def paymentPT : RE := ror [
  rsq [rstr "link", wsOpt, rstr "de", wsOpt, rstr "pagamento"],
  rsq [rstr "link", wsOpt, rstr "para", wsOpt, rstr "pagar"],
  rstr "fatura",
  rsq [rstr "pedido", wsOpt, rstr "de", wsOpt, rstr "pagamento"],
  rsq [rstr "pagamento", wsOpt, rstr "adiantado"],
  rstr "adiantamento"]

/-- Payment-links battery, French. -/
def paymentFR : RE := ror [
  rsq [rstr "lien", wsOpt, rstr "de", wsOpt, rstr "paiement"],
  rsq [rstr "lien", wsOpt, rstr "pour", wsOpt, rstr "payer"],
  rstr "facture",
  rsq [rstr "demande", wsOpt, rstr "de", wsOpt, rstr "paiement"],
  rsq [rstr "paiement", wsOpt, rstr "a", wsOpt, rstr "l", RE.opt apostCls, rstr "avance"],
  rstr "acompte"]

/-- The payment-links battery as passed to `testAny`. -/
def paymentRegexes : List RE := [paymentEN, paymentES, paymentPT, paymentFR]

/-- Model of `detectCtaPath(text, subj)`: the four batteries tested in fixed priority
order against the haystack; first match wins, no match falls through to
`"/"`. -/
def detectCtaPath (text : String) (subj : String) : String :=
  let hay := haystack text subj
  if testAny hay inPersonRegexes then "/features/in-person"
  else if testAny hay integrationsRegexes then "/features/integrations"
  else if testAny hay onWebsiteRegexes then "/features/on-your-website"
  else if testAny hay paymentRegexes then "/features/in-advance"
  else "/"

/-! ## Greeting enforcement (handler variant with `startsWithGreeting`,
lines 158–183 and 449–460 of that file)

```js
function stripToPlainText(html = "") {
  return String(html).replace(/<[^>]*>/g, " ").replace(/\s+/g, " ").trim();
}
function startsWithGreeting(html = "") {
  const text = stripToPlainText(html).toLowerCase();
  return /^(hi|hello|dear)\b/.test(text);
}
```

The `replace` scanners below follow the same deterministic reading as
`addParagraphSpacing`: none of the patterns involved needs backtracking
(each `\s*` / `[^<]*` is followed by a character its class cannot match), so
global or first-occurrence replace is a left-to-right scan.  Scanners that
walk the string carry a fuel argument (the string length) for structural
recursion. -/

/-- After a `<`, skip to just past the first `>` (the match of `<[^>]*>`). -/
def findTagEnd : List Char → Option (List Char)
  | [] => none
  | c :: cs => if c = '>' then some cs else findTagEnd cs

/-- Global replace of `<[^>]*>` with a single space. -/
def stripTagsGo : Nat → List Char → List Char
  | _, [] => []
  | 0, l => l
  | fuel + 1, c :: cs =>
    if c = '<' then
      match findTagEnd cs with
      | some rest => ' ' :: stripTagsGo fuel rest
      | none => c :: stripTagsGo fuel cs
    else c :: stripTagsGo fuel cs

/-- Global replace of `\s+` with a single space. -/
def collapseWsGo : Nat → List Char → List Char
  | _, [] => []
  | 0, l => l
  | fuel + 1, c :: cs =>
    if jsWsChar c then ' ' :: collapseWsGo fuel (cs.dropWhile jsWsChar)
    else c :: collapseWsGo fuel cs

/-- JavaScript `trim` on a character list. -/
def trimChars (l : List Char) : List Char :=
  ((l.dropWhile jsWsChar).reverse.dropWhile jsWsChar).reverse

/-- Model of `stripToPlainText(html)`. -/
def stripToPlainText (html : String) : String :=
  let noTags := stripTagsGo html.data.length html.data
  ⟨trimChars (collapseWsGo noTags.length noTags)⟩

/-- The anchored pattern `^(hi|hello|dear)\b`. -/
def greetingRe : RE :=
  ror [rsq [rstr "hi", RE.wb], rsq [rstr "hello", RE.wb], rsq [rstr "dear", RE.wb]]

/-- Model of `startsWithGreeting(html)`. -/
def startsWithGreeting (html : String) : Bool :=
  reMatchStart greetingRe (jsToLower (stripToPlainText html))

/-- Consume a literal case-insensitively, returning the consumed text as it
appeared in the input together with the rest. -/
def eatLitCI : List Char → List Char → Option (List Char × List Char)
  | [], l => some ([], l)
  | _, [] => none
  | p :: ps, c :: cs =>
    if p.toLower == c.toLower then (eatLitCI ps cs).map (fun r => (c :: r.1, r.2)) else none

/-- Split maximal leading whitespace (`\s*`). -/
def spanWs (l : List Char) : List Char × List Char :=
  (l.takeWhile jsWsChar, l.dropWhile jsWsChar)

/-- Consume an optional comma (`,?`). -/
def eatComma : List Char → List Char × List Char
  | ',' :: cs => ([','], cs)
  | l => ([], l)

/-- Match `(<p>)(\s*hi\s+there\s*,?\s*)(<\/p>)` (case-insensitively) at the
head, returning the captures `$1`, `$3` and the rest. -/
def matchHiThere (l : List Char) : Option (List Char × List Char × List Char) :=
  (eatLitCI "<p>".data l).bind fun g1r =>
    (eatLitCI "hi".data (spanWs g1r.2).2).bind fun hir =>
      match hir.2 with
      | [] => none
      | c :: cs =>
        if jsWsChar c then
          (eatLitCI "there".data (cs.dropWhile jsWsChar)).bind fun thr =>
            let l6 := (spanWs thr.2).2
            let l7 := (eatComma l6).2
            let l8 := (spanWs l7).2
            (eatLitCI "</p>".data l8).map fun g3r => (g1r.1, g3r.1, g3r.2)
        else none

/-- Leftmost match of the `hi there` paragraph pattern: returns the prefix
before the match, the captures and the rest. -/
def findHiThere : Nat → List Char → Option (List Char × List Char × List Char × List Char)
  | _, [] => none
  | 0, _ => none
  | fuel + 1, c :: cs =>
    match matchHiThere (c :: cs) with
    | some r => some ([], r.1, r.2.1, r.2.2)
    | none => (findHiThere fuel cs).map fun r => (c :: r.1, r.2.1, r.2.2.1, r.2.2.2)

/-- Match the anchored pattern `^(\s*)hi\s+there\s*,?` (case-insensitively),
returning the rest of the string after the match. -/
def matchStartHiThere (l : List Char) : Option (List Char) :=
  (eatLitCI "hi".data (l.dropWhile jsWsChar)).bind fun hir =>
    match hir.2 with
    | [] => none
    | c :: cs =>
      if jsWsChar c then
        (eatLitCI "there".data (cs.dropWhile jsWsChar)).map fun thr =>
          (eatComma (spanWs thr.2).2).2
      else none

/-- Model of `personalizeExistingGreeting(html, name)`: if `name` is non-empty,
rewrite a `Hi there` paragraph (first occurrence) and then an initial
`hi there` (first occurrence) to `Hi name,`. -/
def personalizeExistingGreeting (html name : String) : String :=
  if name = "" then html
  else
    let h1 :=
      match findHiThere html.data.length html.data with
      | none => html.data
      | some r => r.1 ++ r.2.1 ++ ("Hi ".data ++ name.data ++ [',']) ++ r.2.2.1 ++ r.2.2.2
    let h2 :=
      match matchStartHiThere h1 with
      | none => h1
      | some rest => "Hi ".data ++ name.data ++ [','] ++ rest
    ⟨h2⟩

/-- Consume `hi`, `hello` or `dear` case-insensitively (alternatives in the
source order; their literals diverge at the second character, so this is the
regex's backtracking order). -/
def eatAltGreet (l : List Char) : Option (List Char × List Char) :=
  match eatLitCI "hi".data l with
  | some r => some r
  | none =>
    match eatLitCI "hello".data l with
    | some r => some r
    | none => eatLitCI "dear".data l

/-- Match one greeting paragraph `<p>\s*(?:hi|hello|dear)[^<]*<\/p>` at the
head, returning the matched text and the rest. -/
def matchGreetingPara (l : List Char) : Option (List Char × List Char) :=
  (eatLitCI "<p>".data l).bind fun g1r =>
    let w := spanWs g1r.2
    (eatAltGreet w.2).bind fun gw =>
      let body := gw.2.takeWhile (fun c => !(c == '<'))
      let l4 := gw.2.dropWhile (fun c => !(c == '<'))
      (eatLitCI "</p>".data l4).map fun cl => (g1r.1 ++ w.1 ++ gw.1 ++ body ++ cl.1, cl.2)

/-- Match two adjacent greeting paragraphs at the head, returning the first
paragraph (`$1`) and the rest after the whole match. -/
def matchDoubleGreet (l : List Char) : Option (List Char × List Char) :=
  (matchGreetingPara l).bind fun p1 =>
    (matchGreetingPara (spanWs p1.2).2).map fun p2 => (p1.1, p2.2)

/-- Leftmost occurrence of two adjacent greeting paragraphs. -/
def findDoubleGreet : Nat → List Char → Option (List Char × List Char × List Char)
  | _, [] => none
  | 0, _ => none
  | fuel + 1, c :: cs =>
    match matchDoubleGreet (c :: cs) with
    | some r => some ([], r.1, r.2)
    | none => (findDoubleGreet fuel cs).map fun r => (c :: r.1, r.2.1, r.2.2)

/-- Model of `dedupeGreetings(html)`: collapse the first occurrence of two adjacent
greeting paragraphs, keeping the first (`"$1"`). -/
def dedupeGreetings (html : String) : String :=
  match findDoubleGreet html.data.length html.data with
  | none => html
  | some r => ⟨r.1 ++ r.2.1 ++ r.2.2⟩

/-- The greeting paragraph `` `<p>Hi ${recipientFirst || "there"},</p>` ``. -/
def greetingHtml (first : String) : String :=
  "<p>Hi " ++ (if first = "" then "there" else first) ++ ",</p>"

/-- The greeting-enforcement step of the handler (lines 449–460): prepend the
greeting when the body does not already start with one, personalise an
existing generic greeting otherwise, then dedupe adjacent greetings. -/
def enforceGreeting (first out : String) : String :=
  dedupeGreetings
    (if startsWithGreeting out then personalizeExistingGreeting out first
     else greetingHtml first ++ out)

/-! ## Demonstration data for the two-page fetch scenario -/

/-- First listed page: ten stubs, newest → oldest (`delivered_at` 20 … 11). -/
def demoPage1 : List Stub :=
  [⟨"m20", some 20⟩, ⟨"m19", some 19⟩, ⟨"m18", some 18⟩, ⟨"m17", some 17⟩, ⟨"m16", some 16⟩,
   ⟨"m15", some 15⟩, ⟨"m14", some 14⟩, ⟨"m13", some 13⟩, ⟨"m12", some 12⟩, ⟨"m11", some 11⟩]

/-- Second listed page: four stubs (`delivered_at` 10 … 7). -/
def demoPage2 : List Stub :=
  [⟨"m10", some 10⟩, ⟨"m9", some 9⟩, ⟨"m8", some 8⟩, ⟨"m7", some 7⟩]

/-- A listing endpoint serving the two pages above: the first request (no
cursor) returns the full page, the request at cursor 11 returns the short
page. -/
def demoApi : Option Int → List Stub
  | none => demoPage1
  | some u => if u = 11 then demoPage2 else []

/-- A hydration endpoint for the demonstration. -/
def demoHydrate : String → Msg := fun _ => { created_at := 0 }

/-- Two messages whose sender addresses are both internal. -/
def demoTabMsgs : List Msg :=
  [{ created_at := 0, fromAddress := some "a@tab.travel" },
   { created_at := 1, fromAddress := some "hello@tab.travel" }]

/-! ## Helper lemmas -/

/-- Rebuilding a string from its character list is the identity. -/
theorem strMk_data : ∀ s : String, String.mk s.data = s
  | ⟨_⟩ => rfl

/-- The character list of `String.mk`. -/
theorem strData_mk (l : List Char) : (String.mk l).data = l := rfl

/-- Length of a string through its character list. -/
theorem strLength_data (s : String) : s.length = s.data.length := rfl

/-- A string is empty iff its character list is. -/
theorem strEq_empty_iff (s : String) : s = "" ↔ s.data = [] := by
  constructor
  · intro h; rw [h]
  · intro h
    have := strMk_data s
    rw [h] at this
    exact this.symm

/-! ## C4 — `clamp` is idempotent -/

/-- C4: `clamp` is idempotent: clamping an already-clamped string at the
same limit returns it unchanged (`clamp(clamp(t, max), max) = clamp(t, max)`
for every string `t` and limit `max`).  When truncation occurs the re-clamp
truncates at exactly the original cut and re-appends the same marker. -/
theorem clamp_idempotent (t : String) (max : Nat) :
    clamp (clamp t max) max = clamp t max := by
  by_cases h0 : t = ""
  · simp [clamp, h0]
  · by_cases hle : t.length ≤ max
    · simp [clamp, h0, hle]
    · have hdata : (clamp t max).data = t.data.take max ++ truncationMarker.data := by
        simp [clamp, h0, hle, String.data_append, strData_mk]
      have hlen : max < t.data.length := by
        have := hle; rw [strLength_data] at this; omega
      have htake : (t.data.take max).length = max := by
        rw [List.length_take]; omega
      have hmarker : truncationMarker.data.length = 29 := by decide
      have hne : clamp t max ≠ "" := by
        intro h
        rw [strEq_empty_iff, hdata] at h
        exact absurd (List.append_eq_nil.mp h).2 (by decide)
      have hgt : ¬ (clamp t max).length ≤ max := by
        rw [strLength_data, hdata, List.length_append, htake, hmarker]
        omega
      have hcut : (clamp t max).data.take max = t.data.take max := by
        rw [hdata, List.take_append_eq_append_take, htake, Nat.sub_self, List.take_zero,
          List.append_nil, List.take_take, Nat.min_self]
      have hstep : ∀ r : String, r ≠ "" → ¬ r.length ≤ max →
          clamp r max = ⟨r.data.take max⟩ ++ truncationMarker := by
        intro r h1 h2
        simp [clamp, h1, h2]
      have hform : clamp t max = ⟨t.data.take max⟩ ++ truncationMarker := by
        simp [clamp, h0, hle]
      rw [hstep (clamp t max) hne hgt, hcut, ← hform]

/-! ## C6 — signature appension is idempotent -/

/-- C6: `appendSignature` is idempotent, and the signature block is
appended exactly when the two marker substrings `"Raghvi"` and
`"Tab Support"` are not both already present in the body. -/
theorem appendSignature_idempotent (html : String) :
    appendSignature (appendSignature html) = appendSignature html
  ∧ ((jsIncludes html "Raghvi" && jsIncludes html "Tab Support") = true →
      appendSignature html = html)
  ∧ ((jsIncludes html "Raghvi" && jsIncludes html "Tab Support") = false →
      appendSignature html = html ++ tabSignature) := by
  have happ : ∀ h : String, (h ++ tabSignature).data = h.data ++ tabSignature.data :=
    fun h => String.data_append h tabSignature
  have hr : ∀ h : String, jsIncludes (h ++ tabSignature) "Raghvi" = true := by
    intro h
    simp only [jsIncludes, decide_eq_true_eq, happ]
    exact (by decide : "Raghvi".data <:+: tabSignature.data).trans
      (List.suffix_append h.data tabSignature.data).isInfix
  have hs : ∀ h : String, jsIncludes (h ++ tabSignature) "Tab Support" = true := by
    intro h
    simp only [jsIncludes, decide_eq_true_eq, happ]
    exact (by decide : "Tab Support".data <:+: tabSignature.data).trans
      (List.suffix_append h.data tabSignature.data).isInfix
  refine ⟨?_, ?_, ?_⟩
  · by_cases hc : (jsIncludes html "Raghvi" && jsIncludes html "Tab Support") = true
    · simp [appendSignature, hc]
    · have h1 : appendSignature html = html ++ tabSignature := by
        simp only [appendSignature]
        rw [if_neg (by simpa using hc)]
      rw [h1]
      simp [appendSignature, hr, hs]
  · intro hc; simp [appendSignature, hc]
  · intro hc
    simp only [appendSignature]
    rw [if_neg (by simp [hc])]

/-- Witness for C6 at the empty body: neither marker is present, so the
signature is appended. -/
theorem appendSignature_idempotent_witness :
    appendSignature "" = "" ++ tabSignature :=
  (appendSignature_idempotent "").2.2 (by decide)

/-! ## C8 — single, non-duplicating `Re:` prefix -/

/-- C8: the draft subject receives exactly one `Re: ` prefix when the
subject is non-empty and does not already start with `re:`
(case-insensitively); a subject already starting with `re:` in any letter
case passes through unchanged; consequently the computation is idempotent
and never double-prefixes. -/
theorem draftSubject_single_re (s : String) :
    (s ≠ "" → jsStartsWith (jsToLower s) "re:" = false → draftSubject s = "Re: " ++ s)
  ∧ (jsStartsWith (jsToLower s) "re:" = true → draftSubject s = s)
  ∧ draftSubject (draftSubject s) = draftSubject s := by
  have hre : ∀ x : String, jsStartsWith (jsToLower ("Re: " ++ x)) "re:" = true := by
    intro x
    simp only [jsStartsWith, decide_eq_true_eq, jsToLower, String.data_append,
      List.map_append, strData_mk]
    have hmap : "Re: ".data.map jsLowerChar = "re: ".data := by decide
    rw [hmap]
    exact (by decide : "re:".data <+: "re: ".data).trans
      (List.prefix_append "re: ".data (x.data.map jsLowerChar))
  have hne2 : ∀ x : String, ("Re: " ++ x) ≠ "" := by
    intro x h
    have : ("Re: " ++ x).data = [] := by rw [h]
    rw [String.data_append] at this
    simp at this
  refine ⟨fun h0 hpre => by simp [draftSubject, h0, hpre], ?_, ?_⟩
  · intro h
    have hp : "re:".data <+: (jsToLower s).data := by
      simpa [jsStartsWith] using h
    have h0 : s ≠ "" := by
      intro he
      subst he
      simp [jsToLower] at hp
    simp [draftSubject, h0, h]
  · by_cases h0 : s = ""
    · subst h0; decide
    · by_cases hp : jsStartsWith (jsToLower s) "re:" = true
      · have h1 : draftSubject s = s := by simp [draftSubject, h0, hp]
        rw [h1, h1]
      · have h1 : draftSubject s = "Re: " ++ s := by
          simp only [draftSubject]
          rw [if_neg h0, if_neg (by simpa using hp)]
        rw [h1]
        simp [draftSubject, hne2 s, hre s]

/-- Witness for C8: a fresh subject is prefixed once, a lower-case `re:`
subject passes unchanged. -/
theorem draftSubject_single_re_witness :
    draftSubject "Hello" = "Re: Hello" ∧ draftSubject "re: hi" = "re: hi" :=
  ⟨(draftSubject_single_re "Hello").1 (by decide) (by decide),
   (draftSubject_single_re "re: hi").2.1 (by decide)⟩

/-! ## C10 — reply target when every message is internal -/

/-- C10: on a non-empty message list in which every sender address ends
in `@tab.travel` (after lower-casing and trimming), `getReplyTarget` falls
through its external-sender scan and returns the last message of the list;
on an empty list it returns `undefined` (`none`). -/
theorem getReplyTarget_all_internal (msgs : List Msg) :
    (msgs ≠ [] →
      (∀ m ∈ msgs, jsEndsWith (jsTrim (jsToLower (senderAddr m))) "@tab.travel" = true) →
      getReplyTarget msgs = msgs.getLast?)
  ∧ getReplyTarget ([] : List Msg) = none := by
  refine ⟨fun _ hall => ?_, rfl⟩
  have hfind : msgs.reverse.find? (fun m => !isFromTab m) = none := by
    rw [List.find?_eq_none]
    intro m hm
    have hmem := List.mem_reverse.mp hm
    have hend := hall m hmem
    simp [isFromTab, isFromTabAddress, hend]
  simp [getReplyTarget, hfind]

/-- Witness for C10 on two internal messages. -/
theorem getReplyTarget_all_internal_witness :
    getReplyTarget demoTabMsgs = demoTabMsgs.getLast? :=
  (getReplyTarget_all_internal demoTabMsgs).1 (by decide) (by decide)

/-! ## C1 / C2 / C9 — the fetch loop -/

/-- The loop makes at most `fuel` listing calls. -/
theorem fetchGo_calls_le (api : Option Int → List Stub) (hydrate : String → Msg) :
    ∀ (fuel : Nat) (until_ : Option Int) (collected : List Msg),
      (fetchGo api hydrate fuel until_ collected).2 ≤ fuel := by
  intro fuel
  induction fuel with
  | zero => intro u c; simp [fetchGo]
  | succ n ih =>
    intro u c
    simp only [fetchGo]
    split
    · omega
    · split
      · omega
      · simpa using Nat.succ_le_succ (ih _ _)

/-- Each listing call adds at most `limit` messages to the accumulator. -/
theorem fetchGo_length_le (api : Option Int → List Stub) (hydrate : String → Msg)
    (hlim : ∀ u, (api u).length ≤ limit) :
    ∀ (fuel : Nat) (until_ : Option Int) (collected : List Msg),
      (fetchGo api hydrate fuel until_ collected).1.length ≤
        collected.length + fuel * limit := by
  intro fuel
  induction fuel with
  | zero => intro u c; simp [fetchGo]
  | succ n ih =>
    intro u c
    simp only [fetchGo]
    split
    · exact Nat.le_add_right _ _
    · split
      · simp only [List.length_append, List.length_map]
        have := hlim u
        have hlim1 : limit ≤ (n + 1) * limit := Nat.le_mul_of_pos_left limit (Nat.succ_pos n)
        omega
      · have hrec := ih ((api u).filterMap Stub.delivered_at).min?
          (c ++ (api u).map fun stub => hydrate stub.id)
        simp only [List.length_append, List.length_map] at hrec
        have := hlim u
        have : (api u).length * 1 ≤ limit := by simpa using hlim u
        simp only []
        calc (fetchGo api hydrate n ((api u).filterMap Stub.delivered_at).min?
                (c ++ (api u).map fun stub => hydrate stub.id)).1.length
            ≤ c.length + (api u).length + n * limit := hrec
          _ ≤ c.length + (n + 1) * limit := by
              have := hlim u
              ring_nf
              omega

/-- Insertion adds one element. -/
theorem length_insertByCreated (m : Msg) (l : List Msg) :
    (insertByCreated m l).length = l.length + 1 := by
  induction l with
  | nil => rfl
  | cons n ns ih =>
    simp only [insertByCreated]
    split
    · rfl
    · simp [ih]

/-- Sorting preserves length. -/
theorem length_sortByCreated (l : List Msg) : (sortByCreated l).length = l.length := by
  induction l with
  | nil => rfl
  | cons m ms ih =>
    show (insertByCreated m (sortByCreated ms)).length = ms.length + 1
    rw [length_insertByCreated, ih]

/-- Membership in an insertion. -/
theorem mem_insertByCreated {x m : Msg} {l : List Msg} :
    x ∈ insertByCreated m l ↔ x = m ∨ x ∈ l := by
  induction l with
  | nil => simp [insertByCreated]
  | cons n ns ih =>
    simp only [insertByCreated]
    split
    · simp only [List.mem_cons]
    · simp only [List.mem_cons, ih]
      tauto

/-- Insertion preserves sortedness by `created_at`. -/
theorem pairwise_insertByCreated {m : Msg} {l : List Msg}
    (h : l.Pairwise (fun a b => a.created_at ≤ b.created_at)) :
    (insertByCreated m l).Pairwise (fun a b => a.created_at ≤ b.created_at) := by
  induction l with
  | nil => simp [insertByCreated]
  | cons n ns ih =>
    rw [List.pairwise_cons] at h
    obtain ⟨hn, hns⟩ := h
    simp only [insertByCreated]
    split
    · rename_i hle
      rw [List.pairwise_cons]
      refine ⟨?_, by rw [List.pairwise_cons]; exact ⟨hn, hns⟩⟩
      intro x hx
      rcases List.mem_cons.mp hx with h1 | h2
      · rw [h1]; exact hle
      · exact le_trans hle (hn x h2)
    · rename_i hgt
      rw [List.pairwise_cons]
      refine ⟨?_, ih hns⟩
      intro x hx
      rcases mem_insertByCreated.mp hx with h1 | h2
      · rw [h1]; omega
      · exact hn x h2

/-- The result of `sortByCreated` is sorted ascending by `created_at`. -/
theorem pairwise_sortByCreated (l : List Msg) :
    (sortByCreated l).Pairwise (fun a b => a.created_at ≤ b.created_at) := by
  induction l with
  | nil => simp [sortByCreated]
  | cons m ms ih => exact pairwise_insertByCreated ih

/-- C1: against any listing endpoint that honours the page-size limit of
10, `fetchConversationMessages` performs at most `MAX_PAGES = 6` listing
calls and returns at most 60 messages — in particular the loop cannot run
unboundedly even when every page is full and the `until` cursor never
advances (the function is total by construction, and the call count is
capped). -/
theorem fetchConversationMessages_page_cap (api : Option Int → List Stub)
    (hydrate : String → Msg) (hlim : ∀ u, (api u).length ≤ limit) :
    (fetchConversationMessages api hydrate).2 ≤ 6 ∧
    (fetchConversationMessages api hydrate).1.length ≤ 60 := by
  constructor
  · exact fetchGo_calls_le api hydrate MAX_PAGES none []
  · show (sortByCreated (fetchGo api hydrate MAX_PAGES none []).1).length ≤ 60
    rw [length_sortByCreated]
    have := fetchGo_length_le api hydrate hlim MAX_PAGES none []
    simpa [MAX_PAGES, limit] using this

/-- Witness for C1 on the demonstration endpoint. -/
theorem fetchConversationMessages_page_cap_witness :
    (fetchConversationMessages demoApi demoHydrate).2 ≤ 6 ∧
    (fetchConversationMessages demoApi demoHydrate).1.length ≤ 60 :=
  fetchConversationMessages_page_cap demoApi demoHydrate (by
    intro u
    cases u with
    | none => decide
    | some v =>
      by_cases hv : v = 11
      · simp [demoApi, hv]; decide
      · simp [demoApi, hv])

/-- C2: whatever pages the listing endpoint delivers and in whatever
order, the message list returned by `fetchConversationMessages` is sorted
non-decreasing by `created_at`. -/
theorem fetchConversationMessages_sorted (api : Option Int → List Stub)
    (hydrate : String → Msg) :
    ((fetchConversationMessages api hydrate).1).Pairwise
      (fun a b => a.created_at ≤ b.created_at) :=
  pairwise_sortByCreated (fetchGo api hydrate MAX_PAGES none []).1

/-- C9: on a listing endpoint whose first page has 10 stubs and whose
second page has 4, `fetchConversationMessages` returns exactly 14 hydrated
messages after exactly 2 listing calls (the short page ends pagination; no
third listing call happens). -/
theorem fetchConversationMessages_two_pages :
    (fetchConversationMessages demoApi demoHydrate).1.length = 14 ∧
    (fetchConversationMessages demoApi demoHydrate).2 = 2 := by decide

/-! ## C3 — CTA routing priority order -/

/-- C3: `detectCtaPath` tests the four keyword batteries in the fixed
order in-person > integrations > on-website > payment-links against the
lower-cased, diacritic-folded haystack built from subject and thread text and
returns the path of the first matching category; if no battery matches it
returns the default path `"/"`.  In particular a text matching both the
in-person and the payment-links battery resolves to the in-person path. -/
theorem detectCtaPath_priority (text subj : String) :
    (testAny (haystack text subj) inPersonRegexes = true →
      detectCtaPath text subj = "/features/in-person")
  ∧ (testAny (haystack text subj) inPersonRegexes = false →
      testAny (haystack text subj) integrationsRegexes = true →
      detectCtaPath text subj = "/features/integrations")
  ∧ (testAny (haystack text subj) inPersonRegexes = false →
      testAny (haystack text subj) integrationsRegexes = false →
      testAny (haystack text subj) onWebsiteRegexes = true →
      detectCtaPath text subj = "/features/on-your-website")
  ∧ (testAny (haystack text subj) inPersonRegexes = false →
      testAny (haystack text subj) integrationsRegexes = false →
      testAny (haystack text subj) onWebsiteRegexes = false →
      testAny (haystack text subj) paymentRegexes = true →
      detectCtaPath text subj = "/features/in-advance")
  ∧ (testAny (haystack text subj) inPersonRegexes = false →
      testAny (haystack text subj) integrationsRegexes = false →
      testAny (haystack text subj) onWebsiteRegexes = false →
      testAny (haystack text subj) paymentRegexes = false →
      detectCtaPath text subj = "/") := by
  refine ⟨?_, ?_, ?_, ?_, ?_⟩ <;> (intros; simp [detectCtaPath, *])

/-- Witness for C3: a text containing both `card reader` (in-person battery)
and `invoice` (payment-links battery) routes to the in-person path, and a
text matching no battery falls through to `/`. -/
theorem detectCtaPath_priority_witness :
    detectCtaPath "we use a card reader and need an invoice" "" = "/features/in-person"
  ∧ detectCtaPath "zzz" "" = "/" :=
  ⟨(detectCtaPath_priority "we use a card reader and need an invoice" "").1 (by decide),
   (detectCtaPath_priority "zzz" "").2.2.2.2 (by decide) (by decide) (by decide) (by decide)⟩

/-! ## C5 — paragraph spacing is *not* idempotent

The claim asserts `addParagraphSpacing (addParagraphSpacing h) =
addParagraphSpacing h` for every `h`.  This fails: the replacement string
`</p><p><br></p><p>` itself contains two `</p><p>` adjacencies, so a second
pass rewrites inside the spacer inserted by the first pass. -/

/-- C5 counterexample: on `<p>a</p><p>b</p>` the second application of
`addParagraphSpacing` changes the output of the first, so the operation is
not idempotent. -/
theorem addParagraphSpacing_not_idempotent :
    ¬ (addParagraphSpacing (addParagraphSpacing "<p>a</p><p>b</p>")
        = addParagraphSpacing "<p>a</p><p>b</p>") := by decide

/-- C5 amended: a single application inserts one spacer paragraph
between each adjacent pair of paragraph elements, but re-applying the
operation to its own output compounds: the two adjacencies inside and around
the inserted spacer are rewritten again, yielding three spacer paragraphs. -/
theorem addParagraphSpacing_single_pass :
    addParagraphSpacing "<p>a</p><p>b</p>" = "<p>a</p><p><br></p><p>b</p>"
  ∧ addParagraphSpacing "<p>a</p><p><br></p><p>b</p>"
      = "<p>a</p><p><br></p><p><br></p><p><br></p><p>b</p>" := by decide

/-! ## C7 — greeting enforcement -/

/-- C7: the greeting-enforcement step prepends the greeting paragraph
`greetingHtml first` (which uses the derived first name, or the fallback
`there`) exactly when the body does not already begin with a greeting word
from the fixed set hi/hello/dear (`startsWithGreeting`); a body that already
begins with a greeting is only personalised/deduplicated, and in particular a
body starting with `Hi Maria,` passes through entirely unchanged — no second
greeting is prefixed. -/
theorem greeting_enforcement_exact (first out : String) :
    (startsWithGreeting out = false →
      enforceGreeting first out = dedupeGreetings (greetingHtml first ++ out))
  ∧ (startsWithGreeting out = true →
      enforceGreeting first out = dedupeGreetings (personalizeExistingGreeting out first))
  ∧ enforceGreeting first "<p>Hi Maria,</p><p>Thanks for reaching out.</p>"
      = "<p>Hi Maria,</p><p>Thanks for reaching out.</p>" := by
  refine ⟨fun h => by simp [enforceGreeting, h], fun h => by simp [enforceGreeting, h], ?_⟩
  have hswg : startsWithGreeting "<p>Hi Maria,</p><p>Thanks for reaching out.</p>" = true := by
    decide
  have hfind :
      findHiThere (String.data "<p>Hi Maria,</p><p>Thanks for reaching out.</p>").length
        (String.data "<p>Hi Maria,</p><p>Thanks for reaching out.</p>") = none := by decide
  have hstart :
      matchStartHiThere (String.data "<p>Hi Maria,</p><p>Thanks for reaching out.</p>")
        = none := by decide
  have hdd :
      findDoubleGreet (String.data "<p>Hi Maria,</p><p>Thanks for reaching out.</p>").length
        (String.data "<p>Hi Maria,</p><p>Thanks for reaching out.</p>") = none := by decide
  have hpers : personalizeExistingGreeting "<p>Hi Maria,</p><p>Thanks for reaching out.</p>"
      first = "<p>Hi Maria,</p><p>Thanks for reaching out.</p>" := by
    by_cases hf : first = ""
    · simp only [personalizeExistingGreeting, hf, eq_self_iff_true, if_true]
    · simp only [personalizeExistingGreeting, hf, if_false, hfind, hstart, strMk_data]
  simp only [enforceGreeting, hswg, eq_self_iff_true, if_true, hpers, dedupeGreetings, hdd]

/-- Witness for C7: a body with no greeting gets the greeting paragraph for
the derived name prepended. -/
theorem greeting_enforcement_exact_witness :
    enforceGreeting "Ana" "<p>Thanks!</p>"
      = dedupeGreetings (greetingHtml "Ana" ++ "<p>Thanks!</p>") :=
  (greeting_enforcement_exact "Ana" "<p>Thanks!</p>").1 (by decide)

end TabMissive
